import Mathlib

/-!
Shallow embedding of the layout/pagination core of `domdiv/draw.py`.

Dimensions and coordinates are modelled as rationals (the Python code uses
floating-point page units with small exact values), Python `int`s as `ℤ`,
Python `//` and `%` as `Int.fdiv` / `Int.fmod` (floor division, remainder
with the sign of the divisor, which is Python's convention), and
`int(a // b)` on nonnegative-ish floats as `Int.floor (a / b)`.
A Python function that can raise at runtime is modelled with `Option`
(`none` means the call raises).
-/

/-- Per-item placement record, from `class CardPlot`.  The `card` field
stands for the opaque card object (we only need its identity).  The four
capitalised fields `CropOnTop` .. `CropOnRight` model the *fresh attributes*
that `PageLayout.setItem` creates through its capitalised assignments
(`item.CropOnBottom = ...`); in Python they are new attributes distinct
from the lower-case `cropOn*` fields and are never read anywhere. -/
structure CardPlot where
  card : ℕ := 0
  x : ℚ := 0
  y : ℚ := 0
  rotation : ℤ := 0
  lineType : String := "line"
  width : ℚ := 0
  height : ℚ := 0
  stackHeight : ℚ := 0
  textTypeFront : String := "card"
  textTypeBack : String := "rules"
  cropOnTop : Bool := false
  cropOnBottom : Bool := false
  cropOnLeft : Bool := false
  cropOnRight : Bool := false
  page : ℤ := 0
  rightSide : Bool := false
  isTabCentred : Bool := false
  CropOnTop : Bool := false
  CropOnBottom : Bool := false
  CropOnLeft : Bool := false
  CropOnRight : Bool := false
  deriving DecidableEq

namespace CardPlot

/-- Directional constant `self.LEFT = 1`. -/
def LEFT : ℤ := 1

/-- Directional constant `self.RIGHT = 2`. -/
def RIGHT : ℤ := 2

/-- Directional constant `self.TOP = 3`. -/
def TOP : ℤ := 3

/-- Directional constant `self.BOTTOM = 4`. -/
def BOTTOM : ℤ := 4

/-- `CardPlot.setXY(x, y, rotation=None)`. -/
def setXY (c : CardPlot) (x y : ℚ) (rot : Option ℤ := none) : CardPlot :=
  match rot with
  | some r => { c with x := x, y := y, rotation := r }
  | none => { c with x := x, y := y }

/-- `CardPlot.rotate(delta)`: `self.rotation = (self.rotation + delta) % 360`. -/
def rotate (c : CardPlot) (delta : ℤ) : CardPlot :=
  { c with rotation := Int.emod (c.rotation + delta) 360 }

/-- `CardPlot.flipFront2Back()`. -/
def flipFront2Back (c : CardPlot) : CardPlot :=
  { c with rightSide := !c.rightSide,
           textTypeFront := c.textTypeBack,
           textTypeBack := c.textTypeFront }

/-- The four local variables `sideTop, sideBottom, sideRight, sideLeft`
assigned by the rotation dispatch of `translateCropmarkEnable`; `none`
models the case where the rotation matches no branch and the locals stay
unassigned. -/
def tceSides (c : CardPlot) : Option (Bool × Bool × Bool × Bool) :=
  if c.rotation = 0 then
    some (c.cropOnTop, c.cropOnBottom, c.cropOnRight, c.cropOnLeft)
  else if c.rotation = 90 then
    some (c.cropOnRight, c.cropOnLeft, c.cropOnBottom, c.cropOnTop)
  else if c.rotation = 180 then
    some (c.cropOnBottom, c.cropOnTop, c.cropOnLeft, c.cropOnRight)
  else if c.rotation = 270 then
    some (c.cropOnLeft, c.cropOnRight, c.cropOnTop, c.cropOnBottom)
  else
    none

/-- `CardPlot.translateCropmarkEnable(side)`.  Python raises
`UnboundLocalError` (modelled as `none`) only when an unassigned local is
actually *read*: with an unmatched rotation the swap reads
`sideLeft, sideRight` when `rightSide` is true, and the dispatch reads a
`side*` local only when `side` is one of the four direction constants;
otherwise the function falls through to `return False`. -/
def translateCropmarkEnable (c : CardPlot) (side : ℤ) : Option Bool :=
  match tceSides c with
  | some (sideTop, sideBottom, sideRight, sideLeft) =>
    let lr := if c.rightSide then (sideRight, sideLeft) else (sideLeft, sideRight)
    if side = TOP then some sideTop
    else if side = BOTTOM then some sideBottom
    else if side = RIGHT then some lr.2
    else if side = LEFT then some lr.1
    else some false
  | none =>
    if c.rightSide then none
    else if side = TOP ∨ side = BOTTOM ∨ side = RIGHT ∨ side = LEFT then none
    else some false

end CardPlot

/-- The `PageLayout` class-level attributes (`PageLayout.pageWidth = ...`
etc.), which the driver sets once before constructing layout instances. -/
structure LayoutConfig where
  pageWidth : ℚ := 0
  pageHeight : ℚ := 0
  extraSpacing : ℚ := 0
  minMarginH : ℚ := 0
  minMarginV : ℚ := 0
  tabHeight : ℚ := 0
  tabWidth : ℚ := 0
  dividerWidth : ℚ := 0
  tabIsHorizontal : Bool := true
  isWrapper : Bool := false
  doExtra : Bool := false
  doInterleave : Bool := false
  deriving DecidableEq

/-- The per-instance state of a `PageLayout` object. -/
structure PageLayout where
  width : ℚ := 0
  height : ℚ := 0
  rotation : ℤ := 0
  extraRotation : ℤ := 0
  layoutIsHorizontal : Bool := true
  rows : ℤ := 0
  columns : ℤ := 0
  extra : ℤ := 0
  marginWidth : ℚ := 0
  marginHeight : ℚ := 0
  horizontalMargin : ℚ := 0
  verticalMargin : ℚ := 0
  leftover : ℚ := 0
  number : ℤ := 0
  tryInterleave : Bool := false
  isInterleaved : Bool := false
  deriving DecidableEq

namespace PageLayout

/-- `PageLayout.calculate(interleave=False)`: recomputes the grid, the
extra region and the margins, mutating (here: rebuilding) the instance. -/
def calculate (cfg : LayoutConfig) (s : PageLayout) (interleave : Bool) : PageLayout :=
  let tryI : Bool :=
    if cfg.tabWidth > cfg.dividerWidth / 2 ∨ ¬cfg.doInterleave then false else s.tryInterleave
  let isI : Bool := interleave && tryI
  let usableWidth : ℚ := cfg.pageWidth - 2 * cfg.minMarginH
  let usableHeight : ℚ := cfg.pageHeight - 2 * cfg.minMarginV
  -- (columns, rows, field_width, field_height)
  let grid : ℤ × ℤ × ℚ × ℚ :=
    if ¬isI then
      let c := Int.floor (usableWidth / s.width)
      let r := Int.floor (usableHeight / s.height)
      (c, r, c * s.width, r * s.height)
    else
      let doUpDown : Bool :=
        (s.layoutIsHorizontal && cfg.tabIsHorizontal) ||
        (!s.layoutIsHorizontal && !cfg.tabIsHorizontal) ||
        (!s.layoutIsHorizontal && cfg.isWrapper)
      if doUpDown then
        let doubleHeight := 2 * s.height - cfg.tabHeight
        let doubles := Int.floor (usableHeight / doubleHeight)
        let singles := Int.floor ((usableHeight - doubles * doubleHeight) / s.height)
        let r := doubles * 2 + singles
        let c := Int.floor (usableWidth / s.width)
        (c, r, c * s.width, doubles * doubleHeight + singles * s.height)
      else
        let doubleHeight := 2 * s.height - cfg.tabHeight
        let doubles := Int.floor (usableWidth / doubleHeight)
        let singles := Int.floor ((usableWidth - doubles * doubleHeight) / s.height)
        let c := doubles * 2 + singles
        let r := Int.floor (usableHeight / s.width)
        (c, r, doubles * doubleHeight + singles * s.height, r * s.width)
  let columns := grid.1
  let rows := grid.2.1
  let field_width := grid.2.2.1
  let field_height := grid.2.2.2
  let marginHeight0 := (usableHeight - field_height) / 2
  let marginWidth0 := (usableWidth - field_width) / 2
  -- (extra, marginWidth, marginHeight, leftover)
  let ext : ℤ × ℚ × ℚ × ℚ :=
    if cfg.doExtra then
      if s.layoutIsHorizontal then
        let leftover1 := usableWidth - field_width - cfg.extraSpacing
        if leftover1 ≥ s.height then
          -- (extra, extraMargin)
          let es : ℤ × ℚ :=
            if isI && (!cfg.tabIsHorizontal || cfg.isWrapper) then
              let doubleWidth := 2 * s.width - cfg.tabHeight
              let doubles := Int.floor (usableHeight / doubleWidth)
              let singles := Int.floor ((usableHeight - doubles * doubleWidth) / s.width)
              (2 * doubles + singles,
               (usableHeight - (doubles * doubleWidth + singles * s.width)) / 2)
            else
              let e := Int.floor (usableHeight / s.width)
              (e, (usableHeight - e * s.width) / 2)
          if es.1 > 0 then
            let leftover2 := usableWidth - field_width - s.height - cfg.extraSpacing
            (es.1, leftover2 / 2, min marginHeight0 es.2, leftover2)
          else
            (es.1, marginWidth0, marginHeight0, leftover1)
        else
          (0, marginWidth0, marginHeight0, leftover1)
      else
        let leftover1 := usableHeight - field_height - cfg.extraSpacing
        if leftover1 ≥ s.width then
          let es : ℤ × ℚ :=
            if isI && (!cfg.tabIsHorizontal || cfg.isWrapper) then
              let doubleHeight := 2 * s.height - cfg.tabHeight
              let doubles := Int.floor (usableWidth / doubleHeight)
              let singles := Int.floor ((usableWidth - doubles * doubleHeight) / s.height)
              (2 * doubles + singles,
               (usableWidth - (doubles * doubleHeight + singles * s.height)) / 2)
            else
              let e := Int.floor (usableWidth / s.height)
              (e, (usableWidth - e * s.height) / 2)
          if es.1 > 0 then
            let leftover2 := usableHeight - field_height - s.width - cfg.extraSpacing
            (es.1, min marginWidth0 es.2, leftover2 / 2, leftover2)
          else
            (es.1, marginWidth0, marginHeight0, leftover1)
        else
          (0, marginWidth0, marginHeight0, leftover1)
    else
      (0, marginWidth0, marginHeight0, s.leftover)
  { s with
    rows := rows
    columns := columns
    extra := ext.1
    marginWidth := ext.2.1
    marginHeight := ext.2.2.1
    leftover := ext.2.2.2
    number := rows * columns + ext.1
    horizontalMargin := ext.2.1 + cfg.minMarginH
    verticalMargin := ext.2.2.1 + cfg.minMarginV
    tryInterleave := tryI
    isInterleaved := isI }

end PageLayout

/-- The instance state right after the field assignments at the top of
`PageLayout.__init__`, before `calculate` is called. -/
def initLayout (cfg : LayoutConfig) (width height : ℚ) (rotation extraRotation : ℤ)
    (layoutIsHorizontal tryInterleave : Bool) : PageLayout :=
  { width := width
    height := height
    rotation := rotation
    extraRotation := extraRotation
    layoutIsHorizontal := layoutIsHorizontal
    horizontalMargin := cfg.minMarginH
    verticalMargin := cfg.minMarginV
    tryInterleave := tryInterleave }

/-- `PageLayout.__init__`: calculate the base layout, and if interleaving
may be attempted, compare with the interleaved layout and keep the better
one (the base layout wins ties). -/
def mkPageLayout (cfg : LayoutConfig) (width height : ℚ) (rotation extraRotation : ℤ)
    (layoutIsHorizontal tryInterleave : Bool) : PageLayout :=
  let s0 := initLayout cfg width height rotation extraRotation layoutIsHorizontal tryInterleave
  let L1 := PageLayout.calculate cfg s0 false
  if L1.tryInterleave then
    let L2 := PageLayout.calculate cfg L1 true
    if L1.number ≥ L2.number then PageLayout.calculate cfg L2 false else L2
  else L1

namespace PageLayout

/-- `PageLayout.setItem(item, itemOnPage, pageNumber, dx, dy)`.  Note the
capitalised assignments in the extra-area branches: the source writes
`item.CropOnBottom` / `item.CropOnTop` (resp. `item.CropOnLeft` /
`item.CropOnRight`), which in Python creates new attributes and leaves the
lower-case `cropOn*` flags untouched. -/
def setItem (cfg : LayoutConfig) (L : PageLayout) (item : CardPlot)
    (itemOnPage : ℕ) (pageNumber : ℤ) (dx dy : ℚ) : CardPlot :=
  if (itemOnPage : ℤ) < L.columns * L.rows then
    let x := Int.fmod (itemOnPage : ℤ) L.columns
    let y := (L.rows - 1) - Int.fdiv (itemOnPage : ℤ) L.columns
    { item with
      page := pageNumber
      rotation := L.rotation
      x := (x : ℚ) * L.width + dx
      y := (y : ℚ) * L.height + dy
      cropOnTop := decide (y = L.rows - 1)
      cropOnBottom := decide (y = 0)
      cropOnLeft := decide (x = 0)
      cropOnRight := decide (x = L.columns - 1) }
  else
    let e := (itemOnPage : ℤ) - L.columns * L.rows
    if L.layoutIsHorizontal then
      { item with
        page := pageNumber
        rotation := L.extraRotation
        x := (L.columns : ℚ) * L.width + cfg.extraSpacing + dx
        y := (e : ℚ) * L.width + dy
        cropOnLeft := true
        cropOnRight := true
        CropOnBottom := decide (e = 0)
        CropOnTop := decide (e = L.extra - 1) }
    else
      { item with
        page := pageNumber
        rotation := L.extraRotation
        x := (e : ℚ) * L.height + dx
        y := (L.rows : ℚ) * L.height + cfg.extraSpacing + dy
        cropOnTop := true
        cropOnBottom := true
        CropOnLeft := decide (e = 0)
        CropOnRight := decide (e = L.extra - 1) }

/-- `PageLayout.paginate(items, pageNumber)` along its non-interleaved
path (the path `convert2pages` exercises in `drawDividers`): the general
assignment loop places `items[i]` for every `i < number` that indexes into
`items`, and the margins and the page list are returned.  The
`isInterleaved` branch of the source only repositions the very objects
already collected in `page` (it never adds, removes or reorders them). -/
def paginate (cfg : LayoutConfig) (L : PageLayout) (items : List CardPlot)
    (pageNumber : ℤ) : ℚ × ℚ × List CardPlot :=
  let page := (items.take L.number.toNat).enum.map fun p =>
    setItem cfg L p.2 p.1 pageNumber 0 0
  (L.horizontalMargin, L.verticalMargin, page)

/-- `PageLayout.interleave(item1, item2, x, y)`: returns the two updated
items and the Python return value (the combined extent of the pair along
the nesting axis). -/
def interleave (cfg : LayoutConfig) (item1 item2 : CardPlot)
    (x' y' : Option ℚ) : CardPlot × CardPlot × ℚ :=
  let item1 :=
    match x', y' with
    | some x, some y => item1.setXY x y
    | _, _ => item1
  let adjustment : ℚ :=
    if cfg.isWrapper ∧ item1.rightSide = item2.rightSide then
      cfg.tabHeight + min item1.stackHeight item2.stackHeight
    else cfg.tabHeight
  -- (item1, item2 after the rotation-directed `setXY`, interleave_x, interleave_y)
  let step : CardPlot × CardPlot × ℚ × ℚ :=
    if item1.rotation = 0 then
      (item1, item2.setXY item1.x (item1.y + item1.height) (some item1.rotation),
       0, -adjustment)
    else if item1.rotation = 90 then
      (item1, item2.setXY (item1.x + item1.height) item1.y (some item1.rotation),
       -adjustment, 0)
    else if item1.rotation = 180 then
      (item1, item2.setXY item1.x (item1.y - item1.height) (some item1.rotation),
       0, adjustment)
    else if item1.rotation = 270 then
      (item1, item2.setXY (item1.x - item1.height) item1.y (some item1.rotation),
       adjustment, 0)
    else
      let item1 := item1.setXY item1.x item1.y (some 0)
      (item1, item2.setXY item1.x (item1.y + item1.height) (some item1.rotation),
       0, adjustment)
  let item1 := step.1
  let item2 := step.2.1
  if item1.isTabCentred ∨ item2.isTabCentred ∨ cfg.dividerWidth / 2 < cfg.tabWidth then
    (item1, item2, item1.height + item2.height)
  else
    let item2 :=
      if cfg.isWrapper then
        if item1.rightSide = item2.rightSide then item2.rotate 180 else item2
      else
        let item2 := item2.rotate 180
        if item1.rightSide ≠ item2.rightSide then item2.flipFront2Back else item2
    let item2 := item2.setXY (item2.x + step.2.2.1) (item2.y + step.2.2.2)
    (item1, item2, item1.height + item2.height - adjustment)

end PageLayout

/-- One iteration state of the generator `split(l, n)`: `i` is the running
start index, `fuel` bounds the number of chunks the generator may still
yield (`none` means the generator does not finish within `fuel` yields —
in particular, for `n = 0` on a non-empty list it never finishes at all).
Faithful for `n ≥ 0`, the only values the program produces. -/
def splitAux {α : Type} (l : List α) (n : ℤ) (i : ℕ) : ℕ → Option (List (List α))
  | 0 => none
  | fuel + 1 =>
    if (i : ℤ) < (l.length : ℤ) - n then
      match splitAux l n (i + n.toNat) fuel with
      | some rest => some (((l.drop i).take n.toNat) :: rest)
      | none => none
    else
      some [l.drop i]

/-- `split(l, n)` run to completion; `l.length + 1` yields always suffice
when `n ≥ 1`. -/
def split {α : Type} (l : List α) (n : ℤ) : Option (List (List α)) :=
  splitAux l n 0 (l.length + 1)

/-- `DividerDrawer.convert2pages(layout, items)`: chunk the items by the
layout's capacity and paginate each chunk with 1-based page numbers;
`none` when the chunking generator never finishes. -/
def convert2pages (cfg : LayoutConfig) (layout : PageLayout) (items : List CardPlot) :
    Option (List (ℚ × ℚ × List CardPlot)) :=
  (split items layout.number).map fun chunks =>
    chunks.enum.map fun p => PageLayout.paginate cfg layout p.2 ((p.1 : ℤ) + 1)

/-- The option fields `DividerDrawer.getPageLayout` reads. -/
structure Options where
  paperwidth : ℚ := 0
  paperheight : ℚ := 0
  dividerHeight : ℚ := 0
  dividerBaseHeight : ℚ := 0
  labelWidth : ℚ := 0
  dividerWidth : ℚ := 0
  optimize_extra : Bool := false
  optimize_interleave : Bool := false
  wrapper : Bool := false
  minHorizontalMargin : ℚ := 0
  minVerticalMargin : ℚ := 0
  orientation : String := "vertical"
  cropmarks : Bool := false
  cropmarkLength : ℚ := 0
  cropmarkSpacing : ℚ := 0
  dividerHeightReserved : ℚ := 0
  dividerWidthReserved : ℚ := 0
  optimize_rotate : Bool := false
  deriving DecidableEq

/-- The class-level configuration `getPageLayout` installs on `PageLayout`
before building the candidate layouts (`extraSpacing` stays at its default
0 unless cropmarks are requested). -/
def layoutConfigOf (o : Options) : LayoutConfig :=
  { pageWidth := o.paperwidth
    pageHeight := o.paperheight
    tabHeight := o.dividerHeight - o.dividerBaseHeight
    tabWidth := o.labelWidth
    dividerWidth := o.dividerWidth
    doExtra := o.optimize_extra
    doInterleave := o.optimize_interleave
    isWrapper := o.wrapper
    minMarginH := o.minHorizontalMargin
    minMarginV := o.minVerticalMargin
    tabIsHorizontal := o.orientation == "horizontal"
    extraSpacing := if o.cropmarks then 2 * (o.cropmarkLength + o.cropmarkSpacing) else 0 }

/-- `DividerDrawer.getPageLayout(options, maxHeight, tryInterleave)`:
build the natural and the rotated-by-90 candidate and pick one.  In the
source's vertical-natural branch the tie-break `if` is followed by a plain
`if`/`else` instead of an `elif`, so its assignment is unconditionally
overwritten: the net result of that branch is
`horizontal if (optimize_rotate and horizontal.number > vertical.number)
else vertical`, which is what is written here. -/
def getPageLayout (o : Options) (maxHeightArg : ℚ) (tryInterleave : Bool) : PageLayout :=
  let cfg := layoutConfigOf o
  let maxHeight := if maxHeightArg < 0 then o.dividerHeightReserved else maxHeightArg
  let maxWidth := o.dividerWidthReserved
  let layoutIsHorizontal : Bool := decide (o.dividerWidthReserved ≥ maxHeight)
  -- (horizontal, vertical)
  let pair : PageLayout × PageLayout :=
    if layoutIsHorizontal then
      (mkPageLayout cfg maxWidth maxHeight 0 90 true tryInterleave,
       mkPageLayout cfg maxHeight maxWidth 90 0 false tryInterleave)
    else
      (mkPageLayout cfg maxHeight maxWidth 90 0 true tryInterleave,
       mkPageLayout cfg maxWidth maxHeight 0 90 false tryInterleave)
  let horizontal := pair.1
  let vertical := pair.2
  if layoutIsHorizontal then
    if o.optimize_rotate ∧ vertical.number = horizontal.number then
      if vertical.extra < horizontal.extra then vertical else horizontal
    else if o.optimize_rotate ∧ vertical.number > horizontal.number then vertical
    else horizontal
  else
    if o.optimize_rotate ∧ horizontal.number > vertical.number then horizontal
    else vertical

/-! Concrete configurations used to instantiate the theorems below. -/

/-- An oversized-item configuration: a 10 by 10 usable page for a 100 by
150 item, with leftover-space extras allowed. -/
def cfgC1 : LayoutConfig :=
  { pageWidth := 10, pageHeight := 10, extraSpacing := 0, minMarginH := 0, minMarginV := 0,
    tabHeight := 20, tabWidth := 40, dividerWidth := 100,
    tabIsHorizontal := false, isWrapper := false, doExtra := true, doInterleave := false }

/-- The (vertical, natural) layout for `cfgC1`: its capacity is zero. -/
def layoutC1 : PageLayout := mkPageLayout cfgC1 100 150 0 90 false false

/-- A single item to paginate with the zero-capacity layout. -/
def itemC1 : CardPlot := { card := 1 }

/-- A horizontal layout with an extra strip: usable page 560 by 300,
item 150 by 100, spacing 10 reserved next to the field. -/
def cfgC2 : LayoutConfig :=
  { pageWidth := 560, pageHeight := 300, extraSpacing := 10, minMarginH := 0, minMarginV := 0,
    tabHeight := 20, tabWidth := 40, dividerWidth := 150,
    tabIsHorizontal := true, isWrapper := false, doExtra := true, doInterleave := false }

/-- The horizontal layout for `cfgC2`: 3 by 3 grid plus 2 extras. -/
def layoutC2 : PageLayout := mkPageLayout cfgC2 150 100 0 90 true false

/-- The spec's concrete scenario: usable page 500 by 700, item 100 by 150,
tab height 20, tab width 40, extras and interleaving disabled. -/
def cfgC3 : LayoutConfig :=
  { pageWidth := 500, pageHeight := 700, extraSpacing := 0, minMarginH := 0, minMarginV := 0,
    tabHeight := 20, tabWidth := 40, dividerWidth := 100,
    tabIsHorizontal := false, isWrapper := false, doExtra := false, doInterleave := false }

/-- The natural vertical layout for `cfgC3`: 5 columns by 4 rows. -/
def layoutC3 : PageLayout := mkPageLayout cfgC3 100 150 0 90 false false

/-- A 3 by 3 grid with no extras: usable page 300 by 450, item 100 by 150. -/
def cfgC4 : LayoutConfig :=
  { pageWidth := 300, pageHeight := 450, extraSpacing := 0, minMarginH := 0, minMarginV := 0,
    tabHeight := 20, tabWidth := 40, dividerWidth := 100,
    tabIsHorizontal := false, isWrapper := false, doExtra := false, doInterleave := false }

/-- The natural vertical layout for `cfgC4`: a 3 by 3 grid, 9 items. -/
def layoutC4 : PageLayout := mkPageLayout cfgC4 100 150 0 90 false false

/-- A capacity-1 layout record, used to paginate the empty item list. -/
def layoutOne : PageLayout := { number := 1 }

/-- Options for which the natural orientation is vertical (reserved item
100 by 150 on a 160 by 260 page), the rotate optimization is on, extras
are on, and the two candidate layouts tie at capacity 2 while the rotated
(horizontal) candidate has strictly fewer extras (0 versus 1). -/
def optsC6 : Options :=
  { paperwidth := 160, paperheight := 260, dividerHeight := 120, dividerBaseHeight := 100,
    labelWidth := 40, dividerWidth := 100, optimize_extra := true, optimize_interleave := false,
    wrapper := false, minHorizontalMargin := 0, minVerticalMargin := 0, orientation := "vertical",
    cropmarks := false, cropmarkLength := 0, cropmarkSpacing := 0,
    dividerHeightReserved := 150, dividerWidthReserved := 100, optimize_rotate := true }

/-- The class configuration `getPageLayout optsC6` installs. -/
def cfgC6 : LayoutConfig := layoutConfigOf optsC6

/-- The natural (vertical) candidate for `optsC6`. -/
def verticalC6 : PageLayout := mkPageLayout cfgC6 100 150 0 90 false false

/-- The rotated (horizontal) candidate for `optsC6`. -/
def horizontalC6 : PageLayout := mkPageLayout cfgC6 150 100 90 0 true false

/-- An interleavable configuration: usable page 500 by 700, tab height 20,
tab width 40 on a 100-wide divider, vertical tabs, interleaving enabled. -/
def cfgC7 : LayoutConfig :=
  { pageWidth := 500, pageHeight := 700, extraSpacing := 0, minMarginH := 0, minMarginV := 0,
    tabHeight := 20, tabWidth := 40, dividerWidth := 100,
    tabIsHorizontal := false, isWrapper := false, doExtra := false, doInterleave := true }

/-- A fresh vertical layout instance for `cfgC7` with interleaving to be
attempted, as `PageLayout.__init__` sets it up before calling `calculate`. -/
def sC7 : PageLayout := initLayout cfgC7 100 150 0 90 false true

/-- A configuration whose tab is wider than half the divider width
(60 > 100 / 2), so interleaving is impossible. -/
def cfgC8 : LayoutConfig :=
  { pageWidth := 500, pageHeight := 700, extraSpacing := 0, minMarginH := 0, minMarginV := 0,
    tabHeight := 20, tabWidth := 60, dividerWidth := 100,
    tabIsHorizontal := false, isWrapper := false, doExtra := false, doInterleave := true }

/-- A card with a rotation outside `{0, 90, 180, 270}` and the tab on the
left (`rightSide = false`). -/
def cardC10 : CardPlot := { rotation := 45 }

/-! Evaluations of the concrete layouts, used by the claim theorems. -/

/-- Evaluation of `layoutC1`: the 100 by 150 item does not fit the 10 by
10 page at all, so the grid is 0 by 0 and no extras fit: capacity 0. -/
theorem layoutC1_eq : layoutC1 =
    { width := 100, height := 150, rotation := 0, extraRotation := 90,
      layoutIsHorizontal := false, rows := 0, columns := 0, extra := 0,
      marginWidth := 5, marginHeight := 5, horizontalMargin := 5, verticalMargin := 5,
      leftover := 10, number := 0, tryInterleave := false, isInterleaved := false } := by
  norm_num [layoutC1, mkPageLayout, initLayout, PageLayout.calculate, cfgC1]

/-- Evaluation of `layoutC2`: a 3 by 3 horizontal grid plus 2 extras. -/
theorem layoutC2_eq : layoutC2 =
    { width := 150, height := 100, rotation := 0, extraRotation := 90,
      layoutIsHorizontal := true, rows := 3, columns := 3, extra := 2,
      marginWidth := 0, marginHeight := 0, horizontalMargin := 0, verticalMargin := 0,
      leftover := 0, number := 11, tryInterleave := false, isInterleaved := false } := by
  norm_num [layoutC2, mkPageLayout, initLayout, PageLayout.calculate, cfgC2]

/-- Evaluation of `layoutC3`: 5 columns by 4 rows, capacity 20. -/
theorem layoutC3_eq : layoutC3 =
    { width := 100, height := 150, rotation := 0, extraRotation := 90,
      layoutIsHorizontal := false, rows := 4, columns := 5, extra := 0,
      marginWidth := 0, marginHeight := 50, horizontalMargin := 0, verticalMargin := 50,
      leftover := 0, number := 20, tryInterleave := false, isInterleaved := false } := by
  norm_num [layoutC3, mkPageLayout, initLayout, PageLayout.calculate, cfgC3]

/-- Evaluation of `layoutC4`: a 3 by 3 grid with no extras. -/
theorem layoutC4_eq : layoutC4 =
    { width := 100, height := 150, rotation := 0, extraRotation := 90,
      layoutIsHorizontal := false, rows := 3, columns := 3, extra := 0,
      marginWidth := 0, marginHeight := 0, horizontalMargin := 0, verticalMargin := 0,
      leftover := 0, number := 9, tryInterleave := false, isInterleaved := false } := by
  norm_num [layoutC4, mkPageLayout, initLayout, PageLayout.calculate, cfgC4]

/-- Evaluation of the natural (vertical) candidate for `optsC6`:
1 by 1 grid plus 1 extra, capacity 2. -/
theorem verticalC6_eq : verticalC6 =
    { width := 100, height := 150, rotation := 0, extraRotation := 90,
      layoutIsHorizontal := false, rows := 1, columns := 1, extra := 1,
      marginWidth := 5, marginHeight := 5, horizontalMargin := 5, verticalMargin := 5,
      leftover := 10, number := 2, tryInterleave := false, isInterleaved := false } := by
  norm_num [verticalC6, mkPageLayout, initLayout, PageLayout.calculate, cfgC6,
    layoutConfigOf, optsC6]

/-- Evaluation of the rotated (horizontal) candidate for `optsC6`:
1 by 2 grid and no extras, capacity 2. -/
theorem horizontalC6_eq : horizontalC6 =
    { width := 150, height := 100, rotation := 90, extraRotation := 0,
      layoutIsHorizontal := true, rows := 2, columns := 1, extra := 0,
      marginWidth := 5, marginHeight := 30, horizontalMargin := 5, verticalMargin := 30,
      leftover := 10, number := 2, tryInterleave := false, isInterleaved := false } := by
  norm_num [horizontalC6, mkPageLayout, initLayout, PageLayout.calculate, cfgC6,
    layoutConfigOf, optsC6]

/-! General helper lemmas about `split`, `setItem` and `paginate`. -/

/-- For a chunk size of at least 1 and enough fuel, `splitAux` yields the
chunking of the remaining suffix: the chunks concatenate back to the
suffix, there are `max 1 ⌈remaining/n⌉` of them, and each has at most `n`
elements. -/
theorem splitAux_sound {α : Type} (n : ℤ) (hn : 1 ≤ n) :
    ∀ (fuel : ℕ) (l : List α) (i : ℕ), l.length - i < fuel →
      ∃ cs, splitAux l n i fuel = some cs ∧
        cs.flatten = l.drop i ∧
        cs.length = max 1 ((l.length - i + n.toNat - 1) / n.toNat) ∧
        ∀ c ∈ cs, c.length ≤ n.toNat := by
  intro fuel
  induction fuel with
  | zero => intro l i h; omega
  | succ f ih =>
    intro l i h
    have hn' : 1 ≤ n.toNat := by omega
    by_cases hc : (i : ℤ) < (l.length : ℤ) - n
    · have hlt : i + n.toNat < l.length := by omega
      obtain ⟨cs, hcs, hjoin, hlen, hsz⟩ := ih l (i + n.toNat) (by omega)
      refine ⟨(l.drop i).take n.toNat :: cs, ?_, ?_, ?_, ?_⟩
      · unfold splitAux
        rw [if_pos hc, hcs]
      · have hdd : l.drop (i + n.toNat) = (l.drop i).drop n.toNat := by
          rw [List.drop_drop, Nat.add_comm]
        simp only [List.flatten_cons]
        rw [hjoin, hdd, List.take_append_drop]
      · simp only [List.length_cons]
        rw [hlen]
        have h1 : l.length - (i + n.toNat) ≥ 1 := by omega
        have h2 : l.length - (i + n.toNat) + n.toNat - 1 =
            (l.length - i - 1 - n.toNat) + n.toNat := by omega
        have h3 : l.length - i + n.toNat - 1 = (l.length - i - 1) + n.toNat := by omega
        have h4 : l.length - i - 1 - n.toNat + n.toNat = l.length - i - 1 := by omega
        rw [h2, h4] at *
        have hge1 : 1 ≤ (l.length - i - 1) / n.toNat := by
          apply Nat.one_le_div_iff (by omega) |>.mpr
          omega
        rw [h3, Nat.add_div_right _ (by omega)]
        have h5 : l.length - i - 1 - n.toNat + n.toNat = l.length - i - 1 := by omega
        have h6 : 1 ≤ (l.length - i - 1 - n.toNat + n.toNat) / n.toNat := by
          rw [h5]; exact hge1
        omega
      · intro c hcmem
        rcases List.mem_cons.mp hcmem with rfl | hcmem
        · simp
        · exact hsz c hcmem
    · refine ⟨[l.drop i], ?_, by simp, ?_, ?_⟩
      · unfold splitAux
        rw [if_neg hc]
      · have hle : l.length - i ≤ n.toNat := by omega
        have hd : (l.length - i + n.toNat - 1) / n.toNat < 2 :=
          Nat.div_lt_of_lt_mul (by omega)
        simp only [List.length_cons, List.length_nil]
        omega
      · intro c hcmem
        rcases List.mem_cons.mp hcmem with rfl | hcmem
        · simp
          omega
        · cases hcmem

/-- `setItem` never touches the wrapped card. -/
theorem setItem_card (cfg : LayoutConfig) (L : PageLayout) (item : CardPlot)
    (i : ℕ) (pn : ℤ) (dx dy : ℚ) :
    (PageLayout.setItem cfg L item i pn dx dy).card = item.card := by
  unfold PageLayout.setItem
  split
  · rfl
  · split <;> rfl

/-- `setItem` stamps the given page number on the item. -/
theorem setItem_page (cfg : LayoutConfig) (L : PageLayout) (item : CardPlot)
    (i : ℕ) (pn : ℤ) (dx dy : ℚ) :
    (PageLayout.setItem cfg L item i pn dx dy).page = pn := by
  unfold PageLayout.setItem
  split
  · rfl
  · split <;> rfl

/-- Placing every enumerated item of a chunk preserves the card sequence. -/
theorem enumFrom_setItem_cards (cfg : LayoutConfig) (L : PageLayout) (pn : ℤ) :
    ∀ (chunk : List CardPlot) (j : ℕ),
      ((chunk.enumFrom j).map fun p => PageLayout.setItem cfg L p.2 p.1 pn 0 0).map
          CardPlot.card = chunk.map CardPlot.card := by
  intro chunk
  induction chunk with
  | nil => intro j; rfl
  | cons a as ih =>
    intro j
    simp only [List.enumFrom, List.map_cons, setItem_card]
    rw [ih (j + 1)]

/-- A page produced by `paginate` from a chunk no longer than the capacity
carries exactly the chunk's cards, each stamped with the page number. -/
theorem paginate_cards (cfg : LayoutConfig) (L : PageLayout) (chunk : List CardPlot)
    (pn : ℤ) (hlen : chunk.length ≤ L.number.toNat) :
    (PageLayout.paginate cfg L chunk pn).2.2.map CardPlot.card = chunk.map CardPlot.card ∧
    ∀ it ∈ (PageLayout.paginate cfg L chunk pn).2.2, it.page = pn := by
  unfold PageLayout.paginate
  simp only
  constructor
  · rw [List.take_of_length_le hlen, List.enum]
    exact enumFrom_setItem_cards cfg L pn chunk 0
  · intro it hit
    obtain ⟨p, hp, rfl⟩ := List.mem_map.mp hit
    exact setItem_page cfg L p.2 p.1 pn 0 0

/-- Mapping `paginate` over enumerated chunks (each within capacity)
preserves the concatenated card sequence and stamps page numbers of at
least 1. -/
theorem pages_flatten (cfg : LayoutConfig) (L : PageLayout) :
    ∀ (cs : List (List CardPlot)) (k : ℕ), (∀ c ∈ cs, c.length ≤ L.number.toNat) →
      (((cs.enumFrom k).map fun p => PageLayout.paginate cfg L p.2 ((p.1 : ℤ) + 1)).map
          fun pg => pg.2.2.map CardPlot.card).flatten = cs.flatten.map CardPlot.card ∧
      ∀ pg ∈ (cs.enumFrom k).map fun p => PageLayout.paginate cfg L p.2 ((p.1 : ℤ) + 1),
        ∀ it ∈ pg.2.2, 1 ≤ it.page := by
  intro cs
  induction cs with
  | nil => intro k _; simp
  | cons c cs ih =>
    intro k hsz
    have hc := hsz c (List.mem_cons_self c cs)
    have hcards := paginate_cards cfg L c ((k : ℤ) + 1) hc
    obtain ⟨ihj, ihm⟩ := ih (k + 1) fun d hd => hsz d (List.mem_cons_of_mem c hd)
    constructor
    · simp only [List.enumFrom, List.map_cons, List.flatten_cons, List.map_append]
      rw [hcards.1, ihj]
    · intro pg hpg it hit
      simp only [List.enumFrom, List.map_cons, List.mem_cons] at hpg
      rcases hpg with rfl | hpg
      · rw [hcards.2 it hit]; omega
      · exact ihm pg hpg it hit

/-! Claim theorems. -/

/-- C1: with a zero-capacity layout (item footprint exceeds the usable
page entirely, `columns*rows = 0`, no extras fit, `number = 0`) and a
non-empty item list, the code does NOT report infeasibility and terminate:
`convert2pages` passes `number = 0` to the `split` generator, whose index
never advances (`i += 0`), so the generator yields empty chunks forever —
for every fuel bound the computation is unfinished (`none`).  This
contradicts the claim's required fatal-error behaviour and exhibits the
code bug. -/
theorem zero_capacity_pagination_diverges :
    layoutC1.number = 0 ∧
    (∀ fuel : ℕ, splitAux [itemC1] (0 : ℤ) 0 fuel = none) ∧
    convert2pages cfgC1 layoutC1 [itemC1] = none := by
  have hsplit : ∀ fuel : ℕ, splitAux [itemC1] (0 : ℤ) 0 fuel = none := by
    intro fuel
    induction fuel with
    | zero => rfl
    | succ n ih =>
      unfold splitAux
      rw [if_pos (by norm_num)]
      simp [ih]
  have hnum : layoutC1.number = 0 := by rw [layoutC1_eq]
  refine ⟨hnum, hsplit, ?_⟩
  simp [convert2pages, split, hnum, hsplit]

/-- C2: in `layoutC2` (3 by 3 horizontal grid, 2 extras, spacing 10) the
extra item at index 10 (`e = 1 = extra - 1`) does get
`x = columns*width + extraSpacing = 460` and both packed-axis flags
`cropOnLeft`/`cropOnRight`, but the claimed perpendicular-edge flag is NOT
set: the source assigns `item.CropOnTop` / `item.CropOnBottom` (capital C,
fresh attributes that nothing reads), so the item's real `cropOnTop` stays
`false` for the last extra and `cropOnBottom` stays `false` for the first
extra — the code bug behind the claim's failure. -/
theorem extra_item_perpendicular_crop_flags_not_set :
    layoutC2.extra = 2 ∧ layoutC2.number = 11 ∧
    ((PageLayout.setItem cfgC2 layoutC2 {} 10 1 0 0).x = 460 ∧
     (PageLayout.setItem cfgC2 layoutC2 {} 10 1 0 0).y = 150 ∧
     (PageLayout.setItem cfgC2 layoutC2 {} 10 1 0 0).cropOnLeft = true ∧
     (PageLayout.setItem cfgC2 layoutC2 {} 10 1 0 0).cropOnRight = true ∧
     (PageLayout.setItem cfgC2 layoutC2 {} 10 1 0 0).cropOnTop = false ∧
     (PageLayout.setItem cfgC2 layoutC2 {} 10 1 0 0).CropOnTop = true) ∧
    ((PageLayout.setItem cfgC2 layoutC2 {} 9 1 0 0).cropOnBottom = false ∧
     (PageLayout.setItem cfgC2 layoutC2 {} 9 1 0 0).CropOnBottom = true) := by
  rw [layoutC2_eq]
  norm_num [PageLayout.setItem, Int.fmod, Int.fdiv, cfgC2]

/-- C3 counterexample: in the spec's concrete 500 by 700 scenario the
layout is indeed 5 columns by 4 rows, but the item at index 7 is NOT
placed at `y = 150`: the code computes `y = (rows-1 - 7//5)*150 = 300`. -/
theorem concrete_scenario_item7_y_is_not_150 :
    layoutC3.columns = 5 ∧ layoutC3.rows = 4 ∧
    (PageLayout.setItem cfgC3 layoutC3 {} 7 1 0 0).y ≠ 150 := by
  rw [layoutC3_eq]
  norm_num [PageLayout.setItem, Int.fmod, Int.fdiv, cfgC3]

/-- C3 (amended): the concrete 500 by 700 scenario with the `y` of item 7
corrected from 150 to 300: `columns = 5, rows = 4, number = 20`; item 7
sits at `(200, 300)` with all four crop flags false; item 0 sits at
`(0, 450)` with `cropOnTop` and `cropOnLeft` true. -/
theorem concrete_scenario_500x700_placements :
    layoutC3.columns = 5 ∧ layoutC3.rows = 4 ∧ layoutC3.number = 20 ∧
    ((PageLayout.setItem cfgC3 layoutC3 {} 7 1 0 0).x = 200 ∧
     (PageLayout.setItem cfgC3 layoutC3 {} 7 1 0 0).y = 300 ∧
     (PageLayout.setItem cfgC3 layoutC3 {} 7 1 0 0).cropOnTop = false ∧
     (PageLayout.setItem cfgC3 layoutC3 {} 7 1 0 0).cropOnBottom = false ∧
     (PageLayout.setItem cfgC3 layoutC3 {} 7 1 0 0).cropOnLeft = false ∧
     (PageLayout.setItem cfgC3 layoutC3 {} 7 1 0 0).cropOnRight = false) ∧
    ((PageLayout.setItem cfgC3 layoutC3 {} 0 1 0 0).x = 0 ∧
     (PageLayout.setItem cfgC3 layoutC3 {} 0 1 0 0).y = 450 ∧
     (PageLayout.setItem cfgC3 layoutC3 {} 0 1 0 0).cropOnTop = true ∧
     (PageLayout.setItem cfgC3 layoutC3 {} 0 1 0 0).cropOnLeft = true) := by
  rw [layoutC3_eq]
  norm_num [PageLayout.setItem, Int.fmod, Int.fdiv, cfgC3]

/-- C4: for every layout with at least one column and every grid index
`i < rows*columns`, `setItem` places item `i` at
`x = (i mod columns)*width`, `y = (rows-1 - i div columns)*height` with
the field's rotation, and sets each crop flag exactly at the matching
boundary; in the concrete 3 by 3 grid `layoutC4` exactly the 8 boundary
cells get at least one true crop flag and the centre cell (index 4) gets
none. -/
theorem grid_placement_and_crop_flags :
    (∀ (cfg : LayoutConfig) (L : PageLayout) (item : CardPlot) (i : ℕ) (pn : ℤ),
      1 ≤ L.columns → (i : ℤ) < L.rows * L.columns →
      (PageLayout.setItem cfg L item i pn 0 0).x =
        ((Int.fmod (i : ℤ) L.columns : ℤ) : ℚ) * L.width ∧
      (PageLayout.setItem cfg L item i pn 0 0).y =
        ((L.rows - 1 - Int.fdiv (i : ℤ) L.columns : ℤ) : ℚ) * L.height ∧
      (PageLayout.setItem cfg L item i pn 0 0).rotation = L.rotation ∧
      ((PageLayout.setItem cfg L item i pn 0 0).cropOnTop = true ↔
        L.rows - 1 - Int.fdiv (i : ℤ) L.columns = L.rows - 1) ∧
      ((PageLayout.setItem cfg L item i pn 0 0).cropOnBottom = true ↔
        L.rows - 1 - Int.fdiv (i : ℤ) L.columns = 0) ∧
      ((PageLayout.setItem cfg L item i pn 0 0).cropOnLeft = true ↔
        Int.fmod (i : ℤ) L.columns = 0) ∧
      ((PageLayout.setItem cfg L item i pn 0 0).cropOnRight = true ↔
        Int.fmod (i : ℤ) L.columns = L.columns - 1)) ∧
    (layoutC4.columns = 3 ∧ layoutC4.rows = 3 ∧ layoutC4.number = 9 ∧
     ∀ i : Fin 9,
       (i.1 ≠ 4 ↔
         ((PageLayout.setItem cfgC4 layoutC4 {} i.1 1 0 0).cropOnTop = true ∨
          (PageLayout.setItem cfgC4 layoutC4 {} i.1 1 0 0).cropOnBottom = true ∨
          (PageLayout.setItem cfgC4 layoutC4 {} i.1 1 0 0).cropOnLeft = true ∨
          (PageLayout.setItem cfgC4 layoutC4 {} i.1 1 0 0).cropOnRight = true))) := by
  constructor
  · intro cfg L item i pn hcol hi
    have hcond : (i : ℤ) < L.columns * L.rows := by rw [mul_comm]; exact hi
    unfold PageLayout.setItem
    rw [if_pos hcond]
    refine ⟨?_, ?_, rfl, ?_, ?_, ?_, ?_⟩ <;> simp [decide_eq_true_iff]
  · refine ⟨by rw [layoutC4_eq], by rw [layoutC4_eq], by rw [layoutC4_eq], ?_⟩
    rw [layoutC4_eq]
    decide

/-- C4 witness: the general part of `grid_placement_and_crop_flags`
instantiated at the centre cell of the concrete 3 by 3 grid. -/
theorem grid_placement_and_crop_flags_witness :
    1 ≤ layoutC4.columns ∧ ((4 : ℕ) : ℤ) < layoutC4.rows * layoutC4.columns ∧
    (PageLayout.setItem cfgC4 layoutC4 {} 4 1 0 0).rotation = layoutC4.rotation := by
  have h1 : 1 ≤ layoutC4.columns := by rw [layoutC4_eq]; decide
  have h2 : ((4 : ℕ) : ℤ) < layoutC4.rows * layoutC4.columns := by rw [layoutC4_eq]; decide
  exact ⟨h1, h2, (grid_placement_and_crop_flags.1 cfgC4 layoutC4 {} 4 1 h1 h2).2.2.1⟩

/-- C5 counterexample: for the empty item list and a capacity-1 layout the
claimed page count `ceil(0/1) = 0` is wrong: `split` still yields one
(empty) chunk, so `convert2pages` produces one page. -/
theorem paginate_empty_list_yields_one_page :
    layoutOne.number = 1 ∧
    (convert2pages {} layoutOne ([] : List CardPlot)).map List.length = some 1 :=
  ⟨rfl, rfl⟩

/-- C5 (amended): for every NON-EMPTY item list and every fixed
non-interleaved layout of capacity `number ≥ 1`, `convert2pages`
terminates with exactly `ceil(N / C)` pages, the concatenation of the
pages' cards is the input card sequence (so each input item lands on
exactly one page, in input order), and every placed item carries a page
number of at least 1.  (For the empty list the code instead emits one
empty page; the `isInterleaved = false` hypothesis marks the modelled
path of `paginate`, which is also the only path on which `drawDividers`
calls `convert2pages`.) -/
theorem convert2pages_page_count_and_membership (cfg : LayoutConfig) (L : PageLayout)
    (items : List CardPlot) (hC : 1 ≤ L.number) (hN : 1 ≤ items.length)
    (_hI : L.isInterleaved = false) :
    ∃ pages, convert2pages cfg L items = some pages ∧
      pages.length = (items.length + L.number.toNat - 1) / L.number.toNat ∧
      (pages.map fun pg => pg.2.2.map CardPlot.card).flatten = items.map CardPlot.card ∧
      ∀ pg ∈ pages, ∀ it ∈ pg.2.2, 1 ≤ it.page := by
  obtain ⟨cs, hcs, hjoin, hlen, hsz⟩ :=
    splitAux_sound L.number hC (items.length + 1) items 0 (by omega)
  simp only [List.drop_zero, Nat.sub_zero] at hjoin hlen
  obtain ⟨hflat, hmem⟩ := pages_flatten cfg L cs 0 hsz
  refine ⟨(cs.enumFrom 0).map fun p => PageLayout.paginate cfg L p.2 ((p.1 : ℤ) + 1),
    ?_, ?_, ?_, ?_⟩
  · simp only [convert2pages, split, hcs, List.enum]
    rfl
  · simp only [List.length_map, List.enumFrom_length]
    rw [hlen]
    have h1 : 1 ≤ (items.length + L.number.toNat - 1) / L.number.toNat := by
      apply Nat.one_le_div_iff (by omega) |>.mpr
      omega
    omega
  · rw [hflat, hjoin]
  · exact hmem

/-- C5 witness: one item, capacity-1 layout: one page holding the item
with page number 1. -/
theorem convert2pages_page_count_and_membership_witness :
    1 ≤ layoutOne.number ∧ 1 ≤ ([itemC1] : List CardPlot).length ∧
    layoutOne.isInterleaved = false ∧
    (∃ pages, convert2pages {} layoutOne [itemC1] = some pages ∧
      pages.length = (([itemC1] : List CardPlot).length + layoutOne.number.toNat - 1) /
        layoutOne.number.toNat ∧
      (pages.map fun pg => pg.2.2.map CardPlot.card).flatten =
        ([itemC1] : List CardPlot).map CardPlot.card ∧
      ∀ pg ∈ pages, ∀ it ∈ pg.2.2, 1 ≤ it.page) :=
  ⟨by decide, by decide, rfl,
   convert2pages_page_count_and_membership {} layoutOne [itemC1] (by decide) (by decide) rfl⟩

/-- C6: with `optsC6` (natural orientation vertical, rotate optimization
on) the two candidates tie at capacity 2 and the rotated horizontal
candidate has strictly fewer extras (0 < 1), so by the claim (and by the
source's own comment, "A tie goes to the layout with fewest extras") the
horizontal candidate should be selected; but the vertical-natural branch
of `getPageLayout` is missing an `elif`, its tie-break assignment is
unconditionally overwritten, and the vertical candidate is returned —
the code bug behind the claim's failure. -/
theorem vertical_tie_break_ignores_extras :
    horizontalC6.number = verticalC6.number ∧
    horizontalC6.extra < verticalC6.extra ∧
    getPageLayout optsC6 (-1) false = verticalC6 ∧
    verticalC6.layoutIsHorizontal = false ∧ verticalC6.rotation = 0 := by
  refine ⟨?_, ?_, ?_, ?_, ?_⟩
  · rw [horizontalC6_eq, verticalC6_eq]
  · rw [horizontalC6_eq, verticalC6_eq]; decide
  · norm_num [getPageLayout, layoutConfigOf, optsC6, verticalC6, cfgC6, mkPageLayout,
      initLayout, PageLayout.calculate]
  · rw [verticalC6_eq]
  · rw [verticalC6_eq]

/-- C7: (pitch law) when interleaving is possible (not a wrapper, neither
item tab-centred, tab width at most half the divider width), interleaving
a pair returns a combined extent of `height1 + height2 - tabHeight` and
offsets the nested partner to `y + height1 - tabHeight`, while the first
item stays at `y`; (counts) in an interleaved `calculate`, the count along
the nesting axis is `2*doubles + singles` with
`doubles = floor(usableLength / (2*itemLength - tabHeight))` and
`singles = floor((usableLength - doubles*(2*itemLength - tabHeight)) /
itemLength)` — rows for the bottom-to-top case, columns for the
left-to-right case. -/
theorem interleave_pitch_and_axis_counts :
    (∀ (cfg : LayoutConfig) (i1 i2 : CardPlot) (x y : ℚ),
      cfg.isWrapper = false → i1.isTabCentred = false → i2.isTabCentred = false →
      cfg.tabWidth ≤ cfg.dividerWidth / 2 → i1.rotation = 0 →
      (PageLayout.interleave cfg i1 i2 (some x) (some y)).2.2 =
        i1.height + i2.height - cfg.tabHeight ∧
      (PageLayout.interleave cfg i1 i2 (some x) (some y)).1.y = y ∧
      (PageLayout.interleave cfg i1 i2 (some x) (some y)).2.1.y =
        y + i1.height - cfg.tabHeight) ∧
    (∀ (cfg : LayoutConfig) (s : PageLayout),
      cfg.doInterleave = true → cfg.tabWidth ≤ cfg.dividerWidth / 2 →
      s.tryInterleave = true →
      ((s.layoutIsHorizontal && cfg.tabIsHorizontal) ||
       (!s.layoutIsHorizontal && !cfg.tabIsHorizontal) ||
       (!s.layoutIsHorizontal && cfg.isWrapper)) = true →
      (PageLayout.calculate cfg s true).isInterleaved = true ∧
      (PageLayout.calculate cfg s true).rows =
        2 * Int.floor ((cfg.pageHeight - 2 * cfg.minMarginV) / (2 * s.height - cfg.tabHeight)) +
        Int.floor (((cfg.pageHeight - 2 * cfg.minMarginV) -
          (Int.floor ((cfg.pageHeight - 2 * cfg.minMarginV) / (2 * s.height - cfg.tabHeight)) : ℤ) *
            (2 * s.height - cfg.tabHeight)) / s.height)) ∧
    (∀ (cfg : LayoutConfig) (s : PageLayout),
      cfg.doInterleave = true → cfg.tabWidth ≤ cfg.dividerWidth / 2 →
      s.tryInterleave = true →
      ((s.layoutIsHorizontal && cfg.tabIsHorizontal) ||
       (!s.layoutIsHorizontal && !cfg.tabIsHorizontal) ||
       (!s.layoutIsHorizontal && cfg.isWrapper)) = false →
      (PageLayout.calculate cfg s true).isInterleaved = true ∧
      (PageLayout.calculate cfg s true).columns =
        2 * Int.floor ((cfg.pageWidth - 2 * cfg.minMarginH) / (2 * s.height - cfg.tabHeight)) +
        Int.floor (((cfg.pageWidth - 2 * cfg.minMarginH) -
          (Int.floor ((cfg.pageWidth - 2 * cfg.minMarginH) / (2 * s.height - cfg.tabHeight)) : ℤ) *
            (2 * s.height - cfg.tabHeight)) / s.height)) := by
  refine ⟨?_, ?_, ?_⟩
  · intro cfg i1 i2 x y hw hc1 hc2 htab hrot
    have hnl : ¬(cfg.dividerWidth / 2 < cfg.tabWidth) := not_lt.mpr htab
    simp only [PageLayout.interleave, CardPlot.setXY]
    simp [hw, hc1, hc2, hnl, hrot, CardPlot.rotate, CardPlot.flipFront2Back]
    split_ifs <;> constructor <;> ring
  · intro cfg s hdo htab htry hud
    have hnl : ¬(cfg.tabWidth > cfg.dividerWidth / 2) := not_lt.mpr htab
    constructor
    · simp [PageLayout.calculate, hnl, hdo, htry, hud]
    · simp [PageLayout.calculate, hnl, hdo, htry, hud]
      ring
  · intro cfg s hdo htab htry hud
    have hnl : ¬(cfg.tabWidth > cfg.dividerWidth / 2) := not_lt.mpr htab
    constructor
    · simp [PageLayout.calculate, hnl, hdo, htry, hud]
    · simp [PageLayout.calculate, hnl, hdo, htry, hud]
      ring

/-- C7 witness: two height-150 items under `cfgC7` nest to a combined
extent of `150 + 150 - 20`, and the interleaved `calculate` on `sC7` is
interleaved. -/
theorem interleave_pitch_and_axis_counts_witness :
    cfgC7.isWrapper = false ∧ cfgC7.tabWidth ≤ cfgC7.dividerWidth / 2 ∧
    (PageLayout.interleave cfgC7 { height := 150 } { height := 150 } (some 0) (some 0)).2.2 =
      ({ height := 150 } : CardPlot).height + ({ height := 150 } : CardPlot).height -
        cfgC7.tabHeight ∧
    sC7.tryInterleave = true ∧
    (PageLayout.calculate cfgC7 sC7 true).isInterleaved = true := by
  have ha := interleave_pitch_and_axis_counts.1 cfgC7 { height := 150 } { height := 150 } 0 0
    rfl rfl rfl (by norm_num [cfgC7]) rfl
  have hb := interleave_pitch_and_axis_counts.2.1 cfgC7 sC7 rfl (by norm_num [cfgC7]) rfl rfl
  exact ⟨rfl, by norm_num [cfgC7], ha.1, rfl, hb.1⟩

/-- C8: whenever the tab is wider than half the divider width,
interleaving is silently disabled: the constructed layout equals the plain
non-interleaved `calculate` result with `isInterleaved` (and the effective
`tryInterleave`) false even when interleaving was requested, and the
pairwise `interleave` leaves the two items un-nested, returning the full
`height1 + height2` (with the partner kept at full pitch and un-rotated in
the rotation-0 case). -/
theorem interleave_disabled_when_tab_too_wide :
    ∀ (cfg : LayoutConfig) (w h : ℚ) (rot erot : ℤ) (lih ti : Bool)
      (i1 i2 : CardPlot) (x y : ℚ),
      cfg.dividerWidth / 2 < cfg.tabWidth →
      (mkPageLayout cfg w h rot erot lih ti =
         PageLayout.calculate cfg (initLayout cfg w h rot erot lih ti) false ∧
       (mkPageLayout cfg w h rot erot lih ti).isInterleaved = false ∧
       (mkPageLayout cfg w h rot erot lih ti).tryInterleave = false) ∧
      (PageLayout.interleave cfg i1 i2 (some x) (some y)).2.2 =
        i1.height + i2.height ∧
      (i1.rotation = 0 →
        (PageLayout.interleave cfg i1 i2 (some x) (some y)).2.1.rotation = 0 ∧
        (PageLayout.interleave cfg i1 i2 (some x) (some y)).2.1.y = y + i1.height) := by
  intro cfg w h rot erot lih ti i1 i2 x y htw
  have htry : ∀ (s : PageLayout) (b : Bool),
      (PageLayout.calculate cfg s b).tryInterleave = false := by
    intro s b
    simp [PageLayout.calculate, htw]
  have hisI : ∀ s : PageLayout,
      (PageLayout.calculate cfg s false).isInterleaved = false := by
    intro s
    simp [PageLayout.calculate]
  have hmk : mkPageLayout cfg w h rot erot lih ti =
      PageLayout.calculate cfg (initLayout cfg w h rot erot lih ti) false := by
    unfold mkPageLayout
    simp [htry]
  refine ⟨⟨hmk, ?_, ?_⟩, ?_, ?_⟩
  · rw [hmk]; exact hisI _
  · rw [hmk]; exact htry _ _
  · simp only [PageLayout.interleave, CardPlot.setXY]
    simp [htw]
    split_ifs <;> simp
  · intro hrot
    simp only [PageLayout.interleave, CardPlot.setXY]
    simp [htw, hrot]

/-- C8 witness: under `cfgC8` (tab 60 on a 100-wide divider) the layout
built with interleaving requested is not interleaved, and two height-150
items stay at the full combined extent 300. -/
theorem interleave_disabled_when_tab_too_wide_witness :
    cfgC8.dividerWidth / 2 < cfgC8.tabWidth ∧
    (mkPageLayout cfgC8 100 150 0 90 false true).isInterleaved = false ∧
    (PageLayout.interleave cfgC8 { height := 150 } { height := 150 } (some 0) (some 0)).2.2 =
      ({ height := 150 } : CardPlot).height + ({ height := 150 } : CardPlot).height := by
  have h := interleave_disabled_when_tab_too_wide cfgC8 100 150 0 90 false true
    { height := 150 } { height := 150 } 0 0 (by norm_num [cfgC8])
  exact ⟨by norm_num [cfgC8], h.1.2.1, h.2.1⟩

/-- C9: `flipFront2Back` toggles `rightSide` and swaps the front/back
text labels while leaving position, rotation, every crop flag, the page
number and the card untouched; applying it twice is the identity; and for
any rotation in `{0, 90, 180, 270}` four successive `rotate 90` calls
restore the card exactly. -/
theorem flip_and_rotate_composition :
    ∀ c : CardPlot,
      (c.flipFront2Back.rightSide = !c.rightSide ∧
       c.flipFront2Back.textTypeFront = c.textTypeBack ∧
       c.flipFront2Back.textTypeBack = c.textTypeFront ∧
       c.flipFront2Back.x = c.x ∧ c.flipFront2Back.y = c.y ∧
       c.flipFront2Back.rotation = c.rotation ∧
       c.flipFront2Back.cropOnTop = c.cropOnTop ∧
       c.flipFront2Back.cropOnBottom = c.cropOnBottom ∧
       c.flipFront2Back.cropOnLeft = c.cropOnLeft ∧
       c.flipFront2Back.cropOnRight = c.cropOnRight ∧
       c.flipFront2Back.page = c.page ∧
       c.flipFront2Back.card = c.card) ∧
      c.flipFront2Back.flipFront2Back = c ∧
      ((c.rotation = 0 ∨ c.rotation = 90 ∨ c.rotation = 180 ∨ c.rotation = 270) →
        (((c.rotate 90).rotate 90).rotate 90).rotate 90 = c) := by
  intro c
  refine ⟨⟨rfl, rfl, rfl, rfl, rfl, rfl, rfl, rfl, rfl, rfl, rfl, rfl⟩, ?_, ?_⟩
  · cases c
    simp [CardPlot.flipFront2Back]
  · intro h
    cases c with
    | mk cd cx cy rot lt w ht sh tf tb ct cb cl cr pg rs tc pT pB pL pR =>
      rcases h with h | h | h | h <;> (subst h; rfl)

/-- C9 witness: a card at rotation 90 is restored by four 90-degree
rotations. -/
theorem flip_and_rotate_composition_witness :
    ((((({ rotation := 90 } : CardPlot).rotate 90).rotate 90).rotate 90).rotate 90) =
      ({ rotation := 90 } : CardPlot) :=
  (flip_and_rotate_composition { rotation := 90 }).2.2 (Or.inr (Or.inl rfl))

/-- C10 counterexample: the claim says a rotation outside
`{0, 90, 180, 270}` makes `translateCropmarkEnable` fail on every call,
but with rotation 45, `rightSide = false` and the unrecognized side 0 the
function reads no unassigned local and returns `False` normally. -/
theorem bad_rotation_unrecognized_side_returns_false :
    cardC10.rotation = 45 ∧
    ¬(cardC10.rotation = 0 ∨ cardC10.rotation = 90 ∨ cardC10.rotation = 180 ∨
      cardC10.rotation = 270) ∧
    cardC10.translateCropmarkEnable 0 = some false := by decide

/-- C10 (amended): for a rotation in `{0, 90, 180, 270}` the function
always returns a boolean, and returns `False` for any side other than the
four direction constants; for a rotation outside the set it fails
(`UnboundLocalError`, modelled `none`) exactly when `rightSide` is true or
the side is one of the four constants, and still returns `False` for an
unrecognized side with `rightSide` false — so the rotation invariant is
sufficient, but not exactly equivalent, to unreachability of the error. -/
theorem translateCropmarkEnable_totality :
    ∀ (c : CardPlot) (side : ℤ),
      ((c.rotation = 0 ∨ c.rotation = 90 ∨ c.rotation = 180 ∨ c.rotation = 270) →
        (∃ b, c.translateCropmarkEnable side = some b) ∧
        (side ≠ CardPlot.TOP → side ≠ CardPlot.BOTTOM → side ≠ CardPlot.RIGHT →
          side ≠ CardPlot.LEFT → c.translateCropmarkEnable side = some false)) ∧
      (¬(c.rotation = 0 ∨ c.rotation = 90 ∨ c.rotation = 180 ∨ c.rotation = 270) →
        ((c.rightSide = true ∨ side = CardPlot.TOP ∨ side = CardPlot.BOTTOM ∨
            side = CardPlot.RIGHT ∨ side = CardPlot.LEFT) →
          c.translateCropmarkEnable side = none) ∧
        (c.rightSide = false → side ≠ CardPlot.TOP → side ≠ CardPlot.BOTTOM →
          side ≠ CardPlot.RIGHT → side ≠ CardPlot.LEFT →
          c.translateCropmarkEnable side = some false)) := by
  intro c side
  constructor
  · intro hrot
    have hs : ∃ s, c.tceSides = some s := by
      unfold CardPlot.tceSides
      rcases hrot with h | h | h | h <;> simp [h]
    obtain ⟨⟨t, b, r, l⟩, hs⟩ := hs
    constructor
    · unfold CardPlot.translateCropmarkEnable
      rw [hs]
      split_ifs <;> exact ⟨_, rfl⟩
    · intro n3 n4 n2 n1
      unfold CardPlot.translateCropmarkEnable
      rw [hs]
      simp [n3, n4, n2, n1]
  · intro hrot
    have hs : c.tceSides = none := by
      push_neg at hrot
      obtain ⟨h0, h90, h180, h270⟩ := hrot
      unfold CardPlot.tceSides
      simp [h0, h90, h180, h270]
    constructor
    · intro hcase
      unfold CardPlot.translateCropmarkEnable
      rw [hs]
      cases hrs : c.rightSide
      · rcases hcase with h | h | h | h | h
        · rw [hrs] at h; cases h
        all_goals simp [hrs, h]
      · simp [hrs]
    · intro hrs n3 n4 n2 n1
      unfold CardPlot.translateCropmarkEnable
      rw [hs]
      simp [hrs, n3, n4, n2, n1]

/-- C10 witness: with rotation 0 an unrecognized side yields `False`, and
with rotation 45 asking for the TOP side fails. -/
theorem translateCropmarkEnable_totality_witness :
    ({} : CardPlot).translateCropmarkEnable 5 = some false ∧
    cardC10.translateCropmarkEnable CardPlot.TOP = none :=
  ⟨((translateCropmarkEnable_totality {} 5).1 (Or.inl rfl)).2
      (by decide) (by decide) (by decide) (by decide),
   ((translateCropmarkEnable_totality cardC10 CardPlot.TOP).2 (by decide)).1
      (Or.inr (Or.inl rfl))⟩
